import Mathlib

/-!
Verification of the page-object-model library (`web_pages`).

The Python source is embedded shallowly:

* `WebElem` models a located Selenium `WebElement` as its observable data
  (tag name and attribute map), which is all the selector predicates of
  `web_pages/core/elements.py` inspect.
* `WebElementExtension` models the factory class of the same name: it keeps
  the registered extension classes in registration order and picks the first
  one whose selector matches (`_select_extension`).
* The page-model machinery of `web_pages/core/page_model.py` (descriptors
  `_WebElement`, `_WebElements`, `_PageFragment`, `_PageFragments`, the base
  `_PageObjectModel`, `PageModel.load_page`, `url_for`) is modelled with
  explicit state passing: the mutable `_cache` attribute of a descriptor
  becomes an explicit field threaded through each call, and every operation
  additionally reports whether it issued a driver lookup.
* `WebDriverWait(...).until` (third-party) is modelled as bounded polling of
  a boolean trace; a timeout raises `TimeoutException`, which
  `wait_until_loaded` wraps into `LoadingPageFailed` (chained cause).
-/

/-- Selenium locator: a `(By.<TYPE>, selector-string)` tuple. -/
structure Locator where
  strategy : String
  query : String
deriving DecidableEq

/-- Observable data of a located WebElement: `tag_name` and the results of
`get_attribute`, modelled as an association list. -/
structure WebElem where
  tag : String
  attrs : List (String × String)
deriving DecidableEq

/-- `element.get_attribute(name)`: `None` becomes `none`. -/
def WebElem.getAttr (e : WebElem) (name : String) : Option String :=
  (e.attrs.find? (fun p => p.fst == name)).map (fun p => p.snd)

/-- `element.get_attribute("class").split()` as used by the chosen-container
selectors (whitespace split of the class attribute). -/
def WebElem.classList (e : WebElem) : List String :=
  ((e.getAttr "class").getD "").splitOn " "

/-- The extension classes registered on `DEFAULT_EXTENSIONS` in
`web_pages/core/elements.py`, plus the default class `ExtendedWebElement`. -/
inductive ExtCls where
  | extendedWebElement
  | checkboxInput
  | textInput
  | textArea
  | numberInput
  | passwordInput
  | radioButton
  | singleSelect
  | multiSelect
  | singleChosenSelect
  | multiChosenSelect
deriving DecidableEq

/-- The `selector` static method of each extension class, translated from
`web_pages/core/elements.py`. -/
def ExtCls.sel : ExtCls → WebElem → Bool
  | .extendedWebElement, _ => true
  | .checkboxInput, e => e.tag == "input" && e.getAttr "type" == some "checkbox"
  | .textInput, e => e.tag == "input" && e.getAttr "type" == some "text"
  | .textArea, e => e.tag == "textarea"
  | .numberInput, e => e.tag == "input" && e.getAttr "type" == some "number"
  | .passwordInput, e => e.tag == "input" && e.getAttr "type" == some "password"
  | .radioButton, e => e.tag == "input" && e.getAttr "type" == some "radio"
  | .singleSelect, e => e.tag == "select" && (e.getAttr "multiple").isNone
  | .multiSelect, e => e.tag == "select" && (e.getAttr "multiple").isSome
  | .singleChosenSelect, e => e.tag == "div" && (e.classList).contains "chosen-container-single"
  | .multiChosenSelect, e => e.tag == "div" && (e.classList).contains "chosen-container-multi"

/-- `WebElementExtension`: factory holding the registered extension classes in
FIFO registration order, the selector of each class, and the default class.
`κ` is the type of extension classes; `selector c` is class `c`'s static
`selector` method. -/
structure WebElementExtension (κ : Type) where
  registered_extensions : List κ
  selector : κ → WebElem → Bool
  default_element_class : κ

/-- `WebElementExtension.register_extension`: appends (FIFO order). -/
def register_extension {κ : Type} (f : WebElementExtension κ) (c : κ) :
    WebElementExtension κ :=
  { f with registered_extensions := f.registered_extensions ++ [c] }

/-- The `for`-loop of `WebElementExtension._select_extension`: first class in
the list whose selector matches the element. -/
def firstMatching {κ : Type} (sel : κ → WebElem → Bool) (e : WebElem) :
    List κ → Option κ
  | [] => none
  | c :: cs => if sel c e then some c else firstMatching sel e cs

/-- `WebElementExtension._select_extension` (also `__call__`): the first
registered class whose selector matches, else the default class. -/
def select_extension {κ : Type} (f : WebElementExtension κ) (e : WebElem) : κ :=
  match firstMatching f.selector e f.registered_extensions with
  | some c => c
  | none => f.default_element_class

/-- `DEFAULT_EXTENSIONS`: the module-level factory with the registration
sequence at the bottom of `web_pages/core/elements.py`. -/
def DEFAULT_EXTENSIONS : WebElementExtension ExtCls :=
  List.foldl register_extension
    { registered_extensions := []
      selector := ExtCls.sel
      default_element_class := ExtCls.extendedWebElement }
    [ExtCls.checkboxInput, ExtCls.textInput, ExtCls.textArea, ExtCls.passwordInput,
     ExtCls.radioButton, ExtCls.singleSelect, ExtCls.multiSelect,
     ExtCls.singleChosenSelect, ExtCls.multiChosenSelect, ExtCls.numberInput]

/-- The browser driver, modelled by its observable queries. `findElementFrom
ctx loc` models `driver.find_element(*loc)` when `ctx = none` and
`root_element.find_element(*loc)` when `ctx = some root_element` (`none`
result models a raised `NoSuchElementException`); similarly for
`findElementsFrom`. `clickable`/`visible` model the
`element_to_be_clickable`/`visibility_of_element_located` expected-condition
results for a locator. -/
structure Driver where
  current_url : String
  findElementFrom : Option WebElem → Locator → Option WebElem
  findElementsFrom : Option WebElem → Locator → List WebElem
  clickable : Locator → Bool
  visible : Locator → Bool

/-- An `ExtendedWebElement` instance: the extension class chosen by the
factory, the wrapped WebElement, and the interaction timeout. -/
structure ExtendedElem (κ : Type) where
  cls : κ
  web_element : WebElem
  timeout : Nat
deriving DecidableEq

/-- Calling the factory (`WebElementExtension.__call__`): wraps the element in
(an instance of) the selected extension class. -/
def factory_call {κ : Type} (f : WebElementExtension κ) (web_element : WebElem)
    (timeout : Nat) : ExtendedElem κ :=
  ⟨select_extension f web_element, web_element, timeout⟩

/-- The per-instance data of a `_PageObjectModel` that a descriptor call
reads: `self.driver`, `self.root` (the runtime root element, `none` when the
class attribute is `None`) and `self.timeout`. -/
structure PageObj where
  driver : Driver
  root : Option WebElem
  timeout : Nat

/-- `_WebElement` descriptor: locator plus the `_PageElement` state
(`use_cache`, `timeout`, `extension_factory`, and the mutable `_cache`,
threaded explicitly). The descriptor is a class attribute of the page class,
so this state is shared by all instances of that class. -/
structure WebElementDesc (κ : Type) where
  locator : Locator
  use_cache : Bool
  timeout : Option Nat
  extension_factory : WebElementExtension κ
  cache : Option (ExtendedElem κ)

/-- `_WebElements` descriptor (collection variant of `_WebElement`). -/
structure WebElementsDesc (κ : Type) where
  locator : Locator
  use_cache : Bool
  timeout : Option Nat
  extension_factory : WebElementExtension κ
  cache : Option (List (ExtendedElem κ))

/-- `_WebElement.find_web_element`: find on `parent_page.root` when set,
otherwise on the driver; no cache, no extension wrapping. -/
def find_web_element {κ : Type} (d : WebElementDesc κ) (p : PageObj) :
    Option WebElem :=
  match p.root with
  | none => p.driver.findElementFrom none d.locator
  | some r => p.driver.findElementFrom (some r) d.locator

/-- `_WebElements.find_web_elements`: `find_elements` on `parent_page.root`
when set, otherwise on the driver. -/
def find_web_elements {κ : Type} (d : WebElementsDesc κ) (p : PageObj) :
    List WebElem :=
  match p.root with
  | none => p.driver.findElementsFrom none d.locator
  | some r => p.driver.findElementsFrom (some r) d.locator

/-- `_WebElement.__call__`: serve the cache when `use_cache` and `_cache` is
truthy (a non-`None` object); otherwise find, wrap via the factory, and store
when caching. Returns (result, updated descriptor state, whether a driver
lookup was issued); a `none` result models a raised `NoSuchElementException`. -/
def webElement_call {κ : Type} (d : WebElementDesc κ) (p : PageObj) :
    Option (ExtendedElem κ) × WebElementDesc κ × Bool :=
  match d.use_cache, d.cache with
  | true, some v => (some v, d, false)
  | _, _ =>
    let t := d.timeout.getD p.timeout
    match find_web_element d p with
    | none => (none, d, true)
    | some se =>
      let ext := factory_call d.extension_factory se t
      (some ext, if d.use_cache then { d with cache := some ext } else d, true)

/-- `_WebElements.__call__`: note the cache hit requires `self._cache` to be
*truthy*, i.e. a non-empty list. -/
def webElements_call {κ : Type} (d : WebElementsDesc κ) (p : PageObj) :
    List (ExtendedElem κ) × WebElementsDesc κ × Bool :=
  match d.use_cache, d.cache with
  | true, some (v :: vs) => (v :: vs, d, false)
  | _, _ =>
    let t := d.timeout.getD p.timeout
    let exts := (find_web_elements d p).map
      (fun se => factory_call d.extension_factory se t)
    (exts, if d.use_cache then { d with cache := some exts } else d, true)

/-- Result of `_PageObjectModel.__getattribute__` on an attribute whose value
is a `_WebElement` descriptor: either the bare WebElement (special `root`
case) or the extended element from normal descriptor resolution. -/
inductive GetattrResult (κ : Type) where
  | bare (e : Option WebElem)
  | resolved (e : Option (ExtendedElem κ))
deriving DecidableEq

/-- `_PageObjectModel.__getattribute__` restricted to attributes holding a
`_WebElement` descriptor: the attribute named `"root"` is special-cased to
`self.driver.find_element(*attribute.locator)`; any other attribute is
resolved by calling the descriptor. -/
def getattribute_pageElement {κ : Type} (p : PageObj) (item : String)
    (d : WebElementDesc κ) : GetattrResult κ × WebElementDesc κ × Bool :=
  if item == "root" then
    (.bare (p.driver.findElementFrom none d.locator), d, true)
  else
    let r := webElement_call d p
    (.resolved r.1, r.2.1, r.2.2)

/-- Deploy environment: the `DEPLOY_SCHEME`, `DEPLOY_PORT`, `DEPLOY_HOST`
variables read by `url_for`. -/
structure Env where
  scheme : String
  port : Option Nat
  host : String

/-- The defaults of `url_for` when no variable is set. -/
def defaultEnv : Env := ⟨"https", none, "www.saucedemo.com"⟩

/-- `url_for(path)`: the full URL for the current deploy host (furl builds
`scheme://host[:port]path` for a rooted path). -/
def url_for (env : Env) (path : String) : String :=
  env.scheme ++ "://" ++ env.host ++
    (match env.port with
     | none => ""
     | some p => ":" ++ toString p) ++ path

/-- Drop everything up to and including the `://` scheme separator. -/
def dropThroughScheme : List Char → List Char
  | ':' :: '/' :: '/' :: rest => rest
  | _ :: rest => dropThroughScheme rest
  | [] => []

/-- `str(furl.furl(url).path)`: the path component of a URL — from the first
`/` after the authority up to the query (`?`) or fragment (`#`). -/
def urlPath (url : String) : String :=
  String.mk (((dropThroughScheme url.toList).dropWhile (fun c => !(c == '/'))).takeWhile
    (fun c => !(c == '?') && !(c == '#')))

/-- `PageModel.is_loaded` base implementation: equality of the full current
URL with `url_for(self.url)`. -/
def PageModel_is_loaded (env : Env) (url : String) (d : Driver) : Bool :=
  d.current_url == url_for env url

/-- `LoginPageModel.url`. -/
def loginPage_url : String := "/"

/-- The locator of `LoginPageModel.is_loaded`'s clickability check. -/
def login_credentials_wrap : Locator := ⟨"class name", "login_credentials_wrap"⟩

/-- `LoginPageModel._is_on_login_page`: compare only the `path` component of
the current URL with the page URL. -/
def is_on_login_page (d : Driver) : Bool :=
  loginPage_url == urlPath d.current_url

/-- `LoginPageModel.is_loaded`. -/
def LoginPageModel_is_loaded (d : Driver) : Bool :=
  is_on_login_page d && d.clickable login_credentials_wrap

/-- `InventoryPage.url`. -/
def inventoryPage_url : String := "/inventory.html"

/-- The locator of `InventoryPage.is_loaded`'s visibility check. -/
def page_wrapper : Locator := ⟨"id", "page_wrapper"⟩

/-- `InventoryPage.is_loaded`: `super().is_loaded()` resolves to the
`PageModel` base implementation (`StandardPageModel` does not override it),
conjoined with visibility of `page_wrapper`. -/
def InventoryPage_is_loaded (env : Env) (d : Driver) : Bool :=
  PageModel_is_loaded env inventoryPage_url d && d.visible page_wrapper

/-- `WebDriverWait(driver, timeout).until(fcn)`: poll the truthiness of
successive evaluations of `fcn`; `some k` is the first truthy poll index,
`none` is a timeout (a raised `TimeoutException`). Time is discretised into
poll steps, the bounded timeout being the number of polls. -/
def pollUntil (loaded : Nat → Bool) : Nat → Nat → Option Nat
  | _, 0 => none
  | start, fuel + 1 =>
    if loaded start then some start else pollUntil loaded (start + 1) fuel

/-- Selenium `TimeoutException` as raised by `WebDriverWait.until`. -/
structure TimeoutException where
  msg : String
deriving DecidableEq

/-- `exceptions.LoadingPageFailed`, raised by `wait_until_loaded` via
`raise_from`: it carries the chained underlying `TimeoutException`. -/
structure LoadingPageFailed where
  msg : String
  cause : TimeoutException
deriving DecidableEq

/-- A `FragmentModel` subclass as used by `fragment`/`fragments` descriptors:
its class-level `timeout` default and, for each root element it is
constructed with, the successive `is_loaded` evaluations seen while
`wait_until_loaded` polls. -/
structure FragmentClass where
  class_timeout : Nat
  loadedTrace : WebElem → Nat → Bool

/-- A constructed fragment page object, as observable to the parent page:
its runtime root element and effective timeout. -/
structure FragPage where
  root : WebElem
  timeout : Nat
deriving DecidableEq

/-- `_PageFragment` descriptor (one sub-page). -/
structure FragmentDesc where
  page_class : FragmentClass
  root : Option WebElem
  use_cache : Bool
  timeout : Option Nat
  cache : Option FragPage

/-- `_PageFragments` descriptor: fragment class, the `roots` `_WebElements`
descriptor (whose own cache `find_web_elements` bypasses), and the
`_PageElement` state. -/
structure FragmentsDesc (κ : Type) where
  page_class : FragmentClass
  roots : WebElementsDesc κ
  use_cache : Bool
  timeout : Option Nat
  cache : Option (List FragPage)

/-- The loop body of `_PageFragments.__call__`:
`page_class(parent_page=..., root=root, timeout=self.timeout)` followed by
`wait_until_loaded()`. `FragmentModel.__init__` keeps the class-level timeout
when the descriptor timeout is `None` and sets the given root element; the
wait polls the fragment's `is_loaded` and raises `LoadingPageFailed` on
timeout. -/
def mk_fragment_and_wait (cls : FragmentClass) (descTimeout : Option Nat)
    (r : WebElem) : Except LoadingPageFailed FragPage :=
  let t := descTimeout.getD cls.class_timeout
  match pollUntil (cls.loadedTrace r) 0 t with
  | some _ => .ok ⟨r, t⟩
  | none => .error ⟨"Failed to load", ⟨""⟩⟩

/-- `_PageFragments.__call__`: serve a *truthy* (non-empty) cached list, else
find the root elements via the `roots` locator (scoped to the parent page's
root) and build one waited-for fragment per found root, in order; a fragment
that fails to load propagates the exception. Returns (result, updated
descriptor, whether a driver lookup was issued). -/
def pageFragments_call {κ : Type} (d : FragmentsDesc κ) (p : PageObj) :
    Except LoadingPageFailed (List FragPage) × FragmentsDesc κ × Bool :=
  match d.use_cache, d.cache with
  | true, some (v :: vs) => (.ok (v :: vs), d, false)
  | _, _ =>
    match (find_web_elements d.roots p).mapM
        (mk_fragment_and_wait d.page_class d.timeout) with
    | .ok objs =>
        (.ok objs, if d.use_cache then { d with cache := some objs } else d, true)
    | .error e => (.error e, d, true)

/-- A `_PageElement` class member of a page class, with its cache state. -/
inductive PageMember (κ : Type) where
  | webElem (d : WebElementDesc κ)
  | webElems (d : WebElementsDesc κ)
  | pageFragment (d : FragmentDesc)
  | pageFragments (d : FragmentsDesc κ)

/-- `_PageElement.clear_cache` applied to a member. -/
def PageMember.clearCache {κ : Type} : PageMember κ → PageMember κ
  | .webElem d => .webElem { d with cache := none }
  | .webElems d => .webElems { d with cache := none }
  | .pageFragment d => .pageFragment { d with cache := none }
  | .pageFragments d => .pageFragments { d with cache := none }

/-- Whether a member's `_cache` is `None` (invalidated/empty). -/
def PageMember.cacheCleared {κ : Type} : PageMember κ → Bool
  | .webElem d => d.cache.isNone
  | .webElems d => d.cache.isNone
  | .pageFragment d => d.cache.isNone
  | .pageFragments d => d.cache.isNone

/-- A `_PageObjectModel` instance together with its class's `_PageElement`
members (as enumerated by `inspect.getmembers` in `clear_cached_elements`)
and the successive `is_loaded` evaluations seen while `wait_until_loaded`
polls. -/
structure Page (κ : Type) where
  driver : Driver
  root : Option WebElem
  timeout : Nat
  members : List (PageMember κ)
  loadedTrace : Nat → Bool

/-- `_PageObjectModel.clear_cached_elements`: clear the cache of every
`_PageElement` member of the class. -/
def clear_cached_elements {κ : Type} (ms : List (PageMember κ)) :
    List (PageMember κ) :=
  ms.map PageMember.clearCache

/-- `_PageObjectModel.__init__`: store the driver, keep the class-level
`timeout`/`root` unless arguments are given, and clear all member caches.
No driver lookup is issued. -/
def pageObjectModel_init {κ : Type} (driver : Driver) (timeout : Option Nat)
    (root : Option WebElem) (class_timeout : Nat) (class_root : Option WebElem)
    (class_members : List (PageMember κ)) (loadedTrace : Nat → Bool) : Page κ :=
  { driver := driver
    root := match root with
      | some r => some r
      | none => class_root
    timeout := timeout.getD class_timeout
    members := clear_cached_elements class_members
    loadedTrace := loadedTrace }

/-- `_PageObjectModel.wait_until_loaded`: poll `is_loaded` for `self.timeout`
polls; on success clear all cached elements and return itself, on timeout
raise `LoadingPageFailed` chained from the `TimeoutException`. -/
def wait_until_loaded {κ : Type} (p : Page κ) :
    Except LoadingPageFailed (Page κ) :=
  match pollUntil p.loadedTrace 0 p.timeout with
  | some _ => .ok { p with members := clear_cached_elements p.members }
  | none => .error ⟨"Failed to load", ⟨""⟩⟩

/-- `driver.get(url)`: navigate the browser. -/
def driver_get (d : Driver) (u : String) : Driver := { d with current_url := u }

/-- `PageModel.load_page`: navigate when the page has a (truthy) URL and
either `force_reload` is set or the browser is on a different URL; in every
case wait until loaded. Returns whether `driver.get` was issued, paired with
the wait outcome. -/
def load_page {κ : Type} (env : Env) (url : String) (p : Page κ)
    (force_reload : Bool) : Bool × Except LoadingPageFailed (Page κ) :=
  let doNav := url != "" &&
    (force_reload || !(p.driver.current_url == url_for env url))
  let p2 :=
    if doNav then { p with driver := driver_get p.driver (url_for env url) } else p
  (doNav, wait_until_loaded p2)

/-! Concrete fixtures used by the witnesses and counterexamples below. -/

/-- An element the test driver returns for document-rooted finds. -/
def elemDoc : WebElem := ⟨"span", [("id", "from-document")]⟩

/-- An element the test driver returns for root-scoped finds. -/
def elemScoped : WebElem := ⟨"span", [("id", "from-root")]⟩

/-- A root element for scoped pages. -/
def rootElem : WebElem := ⟨"section", [("id", "container")]⟩

/-- A driver whose find results differ between document-rooted and
root-scoped lookups. -/
def testDriver : Driver :=
  { current_url := "https://www.saucedemo.com/"
    findElementFrom := fun ctx _ =>
      match ctx with
      | none => some elemDoc
      | some _ => some elemScoped
    findElementsFrom := fun ctx _ =>
      match ctx with
      | none => [elemDoc]
      | some _ => [elemScoped]
    clickable := fun _ => true
    visible := fun _ => true }

/-- A locator fixture. -/
def widgetLoc : Locator := ⟨"id", "widget"⟩

/-- A caching `_WebElement` descriptor with an empty cache. -/
def elemDesc : WebElementDesc ExtCls :=
  ⟨widgetLoc, true, none, DEFAULT_EXTENSIONS, none⟩

/-- A caching `_WebElements` descriptor with an empty cache. -/
def elemsDesc : WebElementsDesc ExtCls :=
  ⟨widgetLoc, true, none, DEFAULT_EXTENSIONS, none⟩

/-- A caching `_WebElements` descriptor whose cache holds an empty list. -/
def elemsDescEmptyList : WebElementsDesc ExtCls :=
  ⟨widgetLoc, true, none, DEFAULT_EXTENSIONS, some []⟩

/-- A cached extended element. -/
def cachedElem : ExtendedElem ExtCls := ⟨ExtCls.extendedWebElement, elemScoped, 5⟩

/-- A caching `_WebElement` descriptor with a populated cache. -/
def elemDescCached : WebElementDesc ExtCls :=
  ⟨widgetLoc, true, none, DEFAULT_EXTENSIONS, some cachedElem⟩

/-- A page-object instance with no root element. -/
def pageDoc : PageObj := ⟨testDriver, none, 10⟩

/-- A page-object instance of the same class, rooted at `rootElem`. -/
def pageScoped : PageObj := ⟨testDriver, some rootElem, 10⟩

/-- A fragment class that is loaded at the first poll for every root. -/
def rowCls : FragmentClass := ⟨10, fun _ _ => true⟩

/-- Locator of the repeated fragment roots. -/
def rowsLoc : Locator := ⟨"css selector", "tr"⟩

/-- The `roots` `_WebElements` descriptor of the fragments fixtures. -/
def rowsDesc : WebElementsDesc ExtCls :=
  ⟨rowsLoc, true, none, DEFAULT_EXTENSIONS, none⟩

/-- A caching `_PageFragments` descriptor with an empty cache. -/
def fragsDesc : FragmentsDesc ExtCls := ⟨rowCls, rowsDesc, true, none, none⟩

/-- A caching `_PageFragments` descriptor whose cache holds an empty list. -/
def fragsDescEmptyList : FragmentsDesc ExtCls := ⟨rowCls, rowsDesc, true, none, some []⟩

/-- Two table rows, in document order. -/
def rowA : WebElem := ⟨"tr", [("id", "row-a")]⟩

/-- Second table row. -/
def rowB : WebElem := ⟨"tr", [("id", "row-b")]⟩

/-- A driver that finds the two rows. -/
def tableDriver : Driver :=
  { current_url := "https://www.saucedemo.com/inventory.html"
    findElementFrom := fun _ _ => none
    findElementsFrom := fun _ _ => [rowA, rowB]
    clickable := fun _ => true
    visible := fun _ => true }

/-- Page-object instance over the table driver. -/
def tablePage : PageObj := ⟨tableDriver, none, 10⟩

/-- `_PageElement` members of a page class, all with populated caches. -/
def memberList : List (PageMember ExtCls) :=
  [.webElem elemDescCached,
   .webElems ⟨widgetLoc, true, none, DEFAULT_EXTENSIONS, some [cachedElem]⟩,
   .pageFragment ⟨rowCls, none, true, none, some ⟨rowA, 10⟩⟩,
   .pageFragments ⟨rowCls, rowsDesc, true, none, some [⟨rowA, 10⟩]⟩]

/-- A page whose `is_loaded` is truthy at the first poll. -/
def loadedPage : Page ExtCls :=
  { driver := testDriver, root := none, timeout := 10,
    members := memberList, loadedTrace := fun _ => true }

/-- `loadedPage` after the cache clearing of a successful wait. -/
def clearedLoadedPage : Page ExtCls :=
  { loadedPage with members := clear_cached_elements loadedPage.members }

/-- A page whose `is_loaded` is never truthy. -/
def neverLoadedPage : Page ExtCls :=
  { driver := testDriver, root := none, timeout := 10,
    members := memberList, loadedTrace := fun _ => false }

/-- A driver sitting on the inventory path plus a query string. -/
def inventoryDriverWithQuery : Driver :=
  { current_url := "https://www.saucedemo.com/inventory.html?sort=az"
    findElementFrom := fun _ _ => none
    findElementsFrom := fun _ _ => []
    clickable := fun _ => true
    visible := fun _ => true }

theorem firstMatching_of_prefix {κ : Type} (sel : κ → WebElem → Bool) (e : WebElem)
    (pre : List κ) (c : κ) (post : List κ)
    (hpre : ∀ c' ∈ pre, sel c' e = false) (hc : sel c e = true) :
    firstMatching sel e (pre ++ c :: post) = some c := by
  induction pre with
  | nil => simp [firstMatching, hc]
  | cons a pre ih =>
      have ha : sel a e = false := hpre a (by simp)
      simp only [List.cons_append, firstMatching, ha]
      simp only [Bool.false_eq_true, if_false]
      exact ih (fun c' hc' => hpre c' (by simp [hc']))

theorem firstMatching_of_none {κ : Type} (sel : κ → WebElem → Bool) (e : WebElem)
    (l : List κ) (h : ∀ c ∈ l, sel c e = false) :
    firstMatching sel e l = none := by
  induction l with
  | nil => rfl
  | cons a l ih =>
      have ha : sel a e = false := h a (by simp)
      simp only [firstMatching, ha, Bool.false_eq_true, if_false]
      exact ih (fun c hc => h c (by simp [hc]))

/-- Claim C1: for every extension factory and every web element, calling the
factory returns (an instance of) the first registered extension class, in FIFO
registration order, whose selector returns true for that element; if no
registered selector matches, it returns (an instance of) the default element
class. -/
theorem select_extension_first_match {κ : Type} (f : WebElementExtension κ)
    (e : WebElem) :
    (∀ pre c post, f.registered_extensions = pre ++ c :: post →
      (∀ c' ∈ pre, f.selector c' e = false) → f.selector c e = true →
      select_extension f e = c) ∧
    ((∀ c ∈ f.registered_extensions, f.selector c e = false) →
      select_extension f e = f.default_element_class) := by
  constructor
  · intro pre c post hsplit hpre hc
    unfold select_extension
    rw [hsplit, firstMatching_of_prefix f.selector e pre c post hpre hc]
  · intro h
    unfold select_extension
    rw [firstMatching_of_none f.selector e f.registered_extensions h]

/-- A concrete `<input type="password">` element: on `DEFAULT_EXTENSIONS` the
three classes registered before `PasswordInput` (checkbox, text, textarea) do
not match, `PasswordInput` does, and the factory picks it. -/
theorem select_extension_first_match_witness :
    (DEFAULT_EXTENSIONS.registered_extensions =
      [ExtCls.checkboxInput, ExtCls.textInput, ExtCls.textArea] ++
        ExtCls.passwordInput ::
          [ExtCls.radioButton, ExtCls.singleSelect, ExtCls.multiSelect,
           ExtCls.singleChosenSelect, ExtCls.multiChosenSelect, ExtCls.numberInput]) ∧
    select_extension DEFAULT_EXTENSIONS
      ⟨"input", [("type", "password")]⟩ = ExtCls.passwordInput := by
  refine ⟨by decide, ?_⟩
  exact (select_extension_first_match DEFAULT_EXTENSIONS
      ⟨"input", [("type", "password")]⟩).1
    [ExtCls.checkboxInput, ExtCls.textInput, ExtCls.textArea]
    ExtCls.passwordInput
    [ExtCls.radioButton, ExtCls.singleSelect, ExtCls.multiSelect,
     ExtCls.singleChosenSelect, ExtCls.multiChosenSelect, ExtCls.numberInput]
    (by decide) (by decide) (by decide)

theorem pollUntil_eq_none_iff (loaded : Nat → Bool) (start fuel : Nat) :
    pollUntil loaded start fuel = none ↔ ∀ k < fuel, loaded (start + k) = false := by
  induction fuel generalizing start with
  | zero => simp [pollUntil]
  | succ fuel ih =>
      by_cases h : loaded start = true
      · simp only [pollUntil, h, if_true]
        constructor
        · intro hcontra; exact absurd hcontra (by simp)
        · intro hall
          have := hall 0 (Nat.succ_pos fuel)
          rw [Nat.add_zero] at this
          rw [h] at this
          exact absurd this (by simp)
      · rw [Bool.not_eq_true] at h
        simp only [pollUntil, h, Bool.false_eq_true, if_false]
        rw [ih (start + 1)]
        constructor
        · intro hall k hk
          cases k with
          | zero => rw [Nat.add_zero]; exact h
          | succ j =>
              have hj : j < fuel := Nat.lt_of_succ_lt_succ hk
              have := hall j hj
              rw [show start + 1 + j = start + (j + 1) by omega] at this
              exact this
        · intro hall k hk
          have := hall (k + 1) (Nat.succ_lt_succ hk)
          rw [show start + (k + 1) = start + 1 + k by omega] at this
          exact this

theorem clear_cached_elements_all_cleared {κ : Type} (ms : List (PageMember κ)) :
    (clear_cached_elements ms).all PageMember.cacheCleared = true := by
  unfold clear_cached_elements
  rw [List.all_eq_true]
  intro m hm
  rw [List.mem_map] at hm
  obtain ⟨m0, _, rfl⟩ := hm
  cases m0 <;> rfl

/-- Claim C5: `wait_until_loaded` polls `is_loaded` until it becomes truthy
or the bounded timeout elapses. When every poll within the timeout is falsy
it raises `LoadingPageFailed` chained from the underlying `TimeoutException`;
when some poll within the timeout is truthy it returns the page object itself
(whose member caches the final `clear_cached_elements` has cleared). -/
theorem wait_until_loaded_polls {κ : Type} (p : Page κ) :
    ((∀ k < p.timeout, p.loadedTrace k = false) →
      wait_until_loaded p =
        .error { msg := "Failed to load", cause := { msg := "" } }) ∧
    ((∃ k, k < p.timeout ∧ p.loadedTrace k = true) →
      wait_until_loaded p =
        .ok { p with members := clear_cached_elements p.members }) := by
  constructor
  · intro hall
    have hnone : pollUntil p.loadedTrace 0 p.timeout = none := by
      rw [pollUntil_eq_none_iff]
      intro k hk
      rw [Nat.zero_add]
      exact hall k hk
    unfold wait_until_loaded
    rw [hnone]
  · rintro ⟨k, hk, hloaded⟩
    have hnn : pollUntil p.loadedTrace 0 p.timeout ≠ none := by
      rw [Ne, pollUntil_eq_none_iff]
      intro hall
      have := hall k hk
      rw [Nat.zero_add, hloaded] at this
      exact absurd this (by simp)
    obtain ⟨j, hj⟩ := Option.ne_none_iff_exists'.mp hnn
    unfold wait_until_loaded
    rw [hj]

/-- The never-loading page raises `LoadingPageFailed` with the chained
timeout cause; the immediately-loading page is returned itself with caches
cleared. -/
theorem wait_until_loaded_polls_witness :
    wait_until_loaded neverLoadedPage =
      .error { msg := "Failed to load", cause := { msg := "" } } ∧
    wait_until_loaded loadedPage =
      .ok { loadedPage with members := clear_cached_elements loadedPage.members } :=
  ⟨(wait_until_loaded_polls neverLoadedPage).1 (fun _ _ => rfl),
   (wait_until_loaded_polls loadedPage).2 ⟨0, by decide, rfl⟩⟩

/-- Claim C3: whenever the page reports a fresh load — a successful
`wait_until_loaded`, and also `_PageObjectModel.__init__` at construction —
the cache of every `_PageElement` descriptor of the page class is
invalidated, so the next attribute access performs a fresh lookup. -/
theorem caches_invalidated_on_fresh_load {κ : Type} (p q : Page κ)
    (driver : Driver) (timeout : Option Nat) (root : Option WebElem)
    (class_timeout : Nat) (class_root : Option WebElem)
    (class_members : List (PageMember κ)) (trace : Nat → Bool)
    (hq : wait_until_loaded p = .ok q) :
    q.members.all PageMember.cacheCleared = true ∧
    (pageObjectModel_init driver timeout root class_timeout class_root
        class_members trace).members.all PageMember.cacheCleared = true := by
  constructor
  · unfold wait_until_loaded at hq
    cases hpoll : pollUntil p.loadedTrace 0 p.timeout with
    | none => rw [hpoll] at hq; exact absurd hq (by simp)
    | some j =>
        rw [hpoll] at hq
        have hmem : q = { p with members := clear_cached_elements p.members } :=
          (Except.ok.injEq _ _).mp hq.symm
        rw [hmem]
        exact clear_cached_elements_all_cleared p.members
  · exact clear_cached_elements_all_cleared class_members

/-- A concrete successful wait and a concrete construction, both starting
from members with populated caches, end with every member cache cleared. -/
theorem caches_invalidated_on_fresh_load_witness :
    clearedLoadedPage.members.all PageMember.cacheCleared = true ∧
    (pageObjectModel_init testDriver none none 10 none memberList
        (fun _ => true)).members.all PageMember.cacheCleared = true :=
  caches_invalidated_on_fresh_load loadedPage clearedLoadedPage testDriver none
    none 10 none memberList (fun _ => true) rfl

/-- Claim C2, counterexample: `_cache` lives on the descriptor, a class
attribute shared by all page-object instances of the class. After an access
through instance `pageDoc` populates the cache, an access through the
distinct instance `pageScoped` is served from that cache without a lookup
and yields the element found for `pageDoc`, although a fresh lookup for
`pageScoped` would find a different element. The memoization is therefore
not per page-object instance. -/
theorem element_cache_shared_counterexample :
    (webElement_call elemDesc pageDoc).2.2 = true ∧
    ((webElement_call elemDesc pageDoc).1).map (fun v => v.web_element) =
      some elemDoc ∧
    (webElement_call (webElement_call elemDesc pageDoc).2.1 pageScoped).2.2 = false ∧
    (webElement_call (webElement_call elemDesc pageDoc).2.1 pageScoped).1 =
      (webElement_call elemDesc pageDoc).1 ∧
    ((webElement_call elemDesc pageScoped).1).map (fun v => v.web_element) =
      some elemScoped ∧
    elemDoc ≠ elemScoped := by decide

/-- Claim C2 (amended): element descriptors resolve lazily — with caching
enabled and an empty cache the access issues the lookup, wraps the found
element, and stores it — and subsequent accesses are served memoized without
a new lookup; but the memoization is per descriptor object (a class
attribute shared by every instance of the page class), not per page-object
instance: the cache-hit branch serves any page-object instance `q`. -/
theorem element_cache_lazy_memoized_per_descriptor {κ : Type}
    (d dc : WebElementDesc κ) (p q : PageObj) (se : WebElem) (v : ExtendedElem κ)
    (huse : d.use_cache = true) (hmiss : d.cache = none)
    (hfind : find_web_element d p = some se)
    (hcuse : dc.use_cache = true) (hhit : dc.cache = some v) :
    webElement_call d p =
      (some (factory_call d.extension_factory se (d.timeout.getD p.timeout)),
        { d with cache := some (factory_call d.extension_factory se (d.timeout.getD p.timeout)) },
        true) ∧
    webElement_call dc q = (some v, dc, false) := by
  constructor
  · obtain ⟨loc, uc, tmo, fac, ch⟩ := d
    simp only at huse hmiss
    subst huse
    subst hmiss
    simp [webElement_call, hfind]
  · obtain ⟨loc, uc, tmo, fac, ch⟩ := dc
    simp only at hcuse hhit
    subst hcuse
    subst hhit
    rfl

/-- Concrete first access through `pageDoc` (lookup issued, result cached on
the descriptor) and cache-hit access through `pageScoped`. -/
theorem element_cache_lazy_memoized_per_descriptor_witness :
    webElement_call elemDesc pageDoc =
      (some (factory_call elemDesc.extension_factory elemDoc
          (elemDesc.timeout.getD pageDoc.timeout)),
        { elemDesc with cache := some (factory_call elemDesc.extension_factory elemDoc (elemDesc.timeout.getD pageDoc.timeout)) },
        true) ∧
    webElement_call elemDescCached pageScoped =
      (some cachedElem, elemDescCached, false) :=
  element_cache_lazy_memoized_per_descriptor elemDesc elemDescCached pageDoc
    pageScoped elemDoc cachedElem rfl rfl rfl rfl rfl

/-- Claim C6: element descriptors locate their elements relative to the
page's root element when it is set (`find_element`/`find_elements` issued on
the root), and relative to the document root (the driver) when it is `None`. -/
theorem find_scoped_to_root {κ : Type} (d : WebElementDesc κ)
    (dm : WebElementsDesc κ) (p : PageObj) :
    (∀ r, p.root = some r →
      find_web_element d p = p.driver.findElementFrom (some r) d.locator ∧
      find_web_elements dm p = p.driver.findElementsFrom (some r) dm.locator) ∧
    (p.root = none →
      find_web_element d p = p.driver.findElementFrom none d.locator ∧
      find_web_elements dm p = p.driver.findElementsFrom none dm.locator) := by
  constructor
  · intro r hr
    constructor <;> simp [find_web_element, find_web_elements, hr]
  · intro hr
    constructor <;> simp [find_web_element, find_web_elements, hr]

/-- On the rooted instance the scoped find is issued on the root element; on
the unrooted instance it is issued on the driver. -/
theorem find_scoped_to_root_witness :
    (pageScoped.root = some rootElem ∧
      find_web_element elemDesc pageScoped =
        pageScoped.driver.findElementFrom (some rootElem) elemDesc.locator ∧
      find_web_elements elemsDesc pageScoped =
        pageScoped.driver.findElementsFrom (some rootElem) elemsDesc.locator) ∧
    (pageDoc.root = none ∧
      find_web_element elemDesc pageDoc =
        pageDoc.driver.findElementFrom none elemDesc.locator ∧
      find_web_elements elemsDesc pageDoc =
        pageDoc.driver.findElementsFrom none elemsDesc.locator) :=
  ⟨⟨rfl, (find_scoped_to_root elemDesc elemsDesc pageScoped).1 rootElem rfl⟩,
   ⟨rfl, (find_scoped_to_root elemDesc elemsDesc pageDoc).2 rfl⟩⟩

/-- Claim C10: on a page-object instance, accessing the attribute named
`root` whose value is a `_PageElement` descriptor returns the bare
WebElement found by issuing the descriptor's locator directly on the driver
— bypassing the descriptor's cache (descriptor state unchanged, result
independent of any cached value), the extension factory (result is bare,
not extended), and any scoping under a parent root element (`find_element`
context is the document root even when `p.root` is set); any other
`_PageElement` attribute is resolved through normal descriptor resolution. -/
theorem getattribute_root_special {κ : Type} (p : PageObj) (item : String)
    (d : WebElementDesc κ) :
    (item = "root" →
      getattribute_pageElement p item d =
        (GetattrResult.bare (p.driver.findElementFrom none d.locator), d, true)) ∧
    (item ≠ "root" →
      getattribute_pageElement p item d =
        (GetattrResult.resolved (webElement_call d p).1,
          (webElement_call d p).2.1, (webElement_call d p).2.2)) := by
  constructor
  · intro h
    subst h
    rfl
  · intro h
    simp [getattribute_pageElement, h]

/-- Accessing `root` on the rooted instance with a populated cache returns
the bare document-scoped element (cache, extension and root scoping all
bypassed); the same descriptor under a different name is served from its
cache. -/
theorem getattribute_root_special_witness :
    getattribute_pageElement pageScoped "root" elemDescCached =
      (GetattrResult.bare
          (pageScoped.driver.findElementFrom none elemDescCached.locator),
        elemDescCached, true) ∧
    getattribute_pageElement pageScoped "widget" elemDescCached =
      (GetattrResult.resolved (webElement_call elemDescCached pageScoped).1,
        (webElement_call elemDescCached pageScoped).2.1,
        (webElement_call elemDescCached pageScoped).2.2) :=
  ⟨(getattribute_root_special pageScoped "root" elemDescCached).1 rfl,
   (getattribute_root_special pageScoped "widget" elemDescCached).2 (by decide)⟩

theorem mapM_mk_fragment_ok (cls : FragmentClass) (tmo : Option Nat)
    (l : List WebElem)
    (h : ∀ r ∈ l, ∃ k, k < tmo.getD cls.class_timeout ∧
      cls.loadedTrace r k = true) :
    l.mapM (mk_fragment_and_wait cls tmo) =
      .ok (l.map (fun r => ⟨r, tmo.getD cls.class_timeout⟩)) := by
  induction l with
  | nil => rfl
  | cons a l ih =>
      obtain ⟨k, hk, hloaded⟩ := h a (by simp)
      have hnn : pollUntil (cls.loadedTrace a) 0 (tmo.getD cls.class_timeout) ≠ none := by
        rw [Ne, pollUntil_eq_none_iff]
        intro hall
        have := hall k hk
        rw [Nat.zero_add, hloaded] at this
        exact absurd this (by simp)
      obtain ⟨j, hj⟩ := Option.ne_none_iff_exists'.mp hnn
      have hfa : mk_fragment_and_wait cls tmo a =
          .ok ⟨a, tmo.getD cls.class_timeout⟩ := by
        simp only [mk_fragment_and_wait]
        rw [hj]
      rw [List.mapM_cons, hfa, ih (fun r hr => h r (by simp [hr]))]
      rfl

/-- Claim C7: resolving a `fragments` descriptor (with nothing cached) finds
the root elements via the `roots` locator and returns exactly one fragment
instance per found root element, in the found order, each constructed with
the corresponding root element and the descriptor-or-class timeout, each
having been waited for until its loaded trace held within that timeout. -/
theorem fragments_one_per_root {κ : Type} (d : FragmentsDesc κ) (p : PageObj)
    (hmiss : d.cache = none)
    (hload : ∀ r ∈ find_web_elements d.roots p,
      ∃ k, k < d.timeout.getD d.page_class.class_timeout ∧
        d.page_class.loadedTrace r k = true) :
    (pageFragments_call d p).1 =
      .ok ((find_web_elements d.roots p).map
        (fun r => ⟨r, d.timeout.getD d.page_class.class_timeout⟩)) ∧
    (pageFragments_call d p).2.2 = true := by
  have hM := mapM_mk_fragment_ok d.page_class d.timeout
    (find_web_elements d.roots p) hload
  obtain ⟨cls, roots, uc, tmo, ch⟩ := d
  simp only at hmiss hM ⊢
  subst hmiss
  cases uc
  · simp only [pageFragments_call]
    rw [hM]
    exact ⟨rfl, rfl⟩
  · simp only [pageFragments_call]
    rw [hM]
    exact ⟨rfl, rfl⟩

/-- Two rows are found in order and one loaded fragment per row is returned,
rooted at that row, with the class timeout. -/
theorem fragments_one_per_root_witness :
    (pageFragments_call fragsDesc tablePage).1 =
      .ok [{ root := rowA, timeout := 10 }, { root := rowB, timeout := 10 }] ∧
    (pageFragments_call fragsDesc tablePage).2.2 = true :=
  fragments_one_per_root fragsDesc tablePage rfl
    (fun r _ => ⟨0, by decide, rfl⟩)

/-- Claim C9: with caching enabled, a previously stored empty list is falsy,
so the cache-hit test never serves it: the next access performs a fresh find
(for `_WebElements`, returning the freshly found mapped elements; for
`_PageFragments`, recomputing from freshly found roots). -/
theorem empty_list_cache_not_served {κ : Type} (d : WebElementsDesc κ)
    (df : FragmentsDesc κ) (p : PageObj)
    (hd : d.use_cache = true) (hdc : d.cache = some [])
    (hf : df.use_cache = true) (hfc : df.cache = some []) :
    (webElements_call d p).2.2 = true ∧
    (webElements_call d p).1 = (find_web_elements d p).map
      (fun se => factory_call d.extension_factory se (d.timeout.getD p.timeout)) ∧
    (pageFragments_call df p).2.2 = true ∧
    (pageFragments_call df p).1 =
      (find_web_elements df.roots p).mapM
        (mk_fragment_and_wait df.page_class df.timeout) := by
  obtain ⟨loc, uc, tmo, fac, ch⟩ := d
  obtain ⟨cls, roots, fuc, ftmo, fch⟩ := df
  simp only at hd hdc hf hfc
  subst hd
  subst hdc
  subst hf
  subst hfc
  refine ⟨rfl, ?_, ?_, ?_⟩
  · simp [webElements_call, find_web_elements]
  · simp only [pageFragments_call]
    cases hm : (find_web_elements roots p).mapM (mk_fragment_and_wait cls ftmo) <;>
      simp [hm]
  · simp only [pageFragments_call]
    cases hm : (find_web_elements roots p).mapM (mk_fragment_and_wait cls ftmo) <;>
      simp [hm]

/-- Concrete cached-empty-list descriptors: the access reports a fresh find
and returns the freshly found elements and fragments, not the cached `[]`. -/
theorem empty_list_cache_not_served_witness :
    (webElements_call elemsDescEmptyList tablePage).2.2 = true ∧
    (webElements_call elemsDescEmptyList tablePage).1 =
      (find_web_elements elemsDescEmptyList tablePage).map
        (fun se => factory_call elemsDescEmptyList.extension_factory se
          (elemsDescEmptyList.timeout.getD tablePage.timeout)) ∧
    (pageFragments_call fragsDescEmptyList tablePage).2.2 = true ∧
    (pageFragments_call fragsDescEmptyList tablePage).1 =
      (find_web_elements fragsDescEmptyList.roots tablePage).mapM
        (mk_fragment_and_wait fragsDescEmptyList.page_class
          fragsDescEmptyList.timeout) :=
  empty_list_cache_not_served elemsDescEmptyList fragsDescEmptyList tablePage
    rfl rfl rfl rfl

/-- Claim C8: for a page with a non-empty URL, `load_page` issues a
navigation (`driver.get` of the full deploy-host URL) exactly when
`force_reload` is set or the browser's current URL differs from that full
URL; in every case it then waits until the page's loaded predicate holds, on
the post-navigation state. -/
theorem load_page_navigates_iff {κ : Type} (env : Env) (url : String)
    (p : Page κ) (force_reload : Bool) (hurl : url ≠ "") :
    ((load_page env url p force_reload).1 = true ↔
      (force_reload = true ∨ p.driver.current_url ≠ url_for env url)) ∧
    (load_page env url p force_reload).2 =
      wait_until_loaded
        (if (load_page env url p force_reload).1 = true
          then { p with driver := driver_get p.driver (url_for env url) }
          else p) := by
  constructor
  · simp [load_page, hurl]
  · rfl

/-- Concretely: from the login URL, loading the inventory page without
`force_reload` navigates (the URLs differ), and the call reduces to waiting
on the navigated state. -/
theorem load_page_navigates_iff_witness :
    ((load_page defaultEnv inventoryPage_url loadedPage false).1 = true ↔
      (false = true ∨
        loadedPage.driver.current_url ≠ url_for defaultEnv inventoryPage_url)) ∧
    (load_page defaultEnv inventoryPage_url loadedPage false).2 =
      wait_until_loaded
        (if (load_page defaultEnv inventoryPage_url loadedPage false).1 = true
          then { loadedPage with driver := driver_get loadedPage.driver (url_for defaultEnv inventoryPage_url) }
          else loadedPage) :=
  load_page_navigates_iff defaultEnv inventoryPage_url loadedPage false
    (by decide)

/-- Claim C4, counterexample: the URL comparison `InventoryPage.is_loaded`
inherits from the `PageModel` base is full-URL equality, not path-only. With
the browser on the inventory path plus a query string and the visibility
predicate holding, the claim says the page is loaded, yet `is_loaded` is
false. Only `LoginPageModel` implements the path-only comparison. -/
theorem inventory_is_loaded_counterexample :
    urlPath inventoryDriverWithQuery.current_url = inventoryPage_url ∧
    inventoryDriverWithQuery.visible page_wrapper = true ∧
    InventoryPage_is_loaded defaultEnv inventoryDriverWithQuery = false := by
  decide

/-- Claim C4 (amended): `LoginPageModel.is_loaded` holds exactly when the
page URL equals the path component of the current browser URL (ignoring the
query string) and the page's clickability predicate holds; pages that keep
the `PageModel` base comparison, such as `InventoryPage`, instead compare
the full current URL — query string included — for equality with the page's
full deploy URL, conjoined with the page's visibility predicate. -/
theorem is_loaded_url_comparison (d : Driver) (env : Env) :
    (LoginPageModel_is_loaded d = true ↔
      (loginPage_url = urlPath d.current_url ∧
        d.clickable login_credentials_wrap = true)) ∧
    (InventoryPage_is_loaded env d = true ↔
      (d.current_url = url_for env inventoryPage_url ∧
        d.visible page_wrapper = true)) := by
  constructor <;>
    simp [LoginPageModel_is_loaded, is_on_login_page, InventoryPage_is_loaded,
      PageModel_is_loaded]
